import Mathlib

/-!
Verification of the te-don-calculator-factory core against its specification.

The Python core (src/core/safety.py, src/core/quality.py, src/core/content_agent.py,
src/core/metrics.py, src/core/pipeline.py) is shallowly embedded below.  External
collaborators (the OpenAI writer/semantic-check clients, the SQLite case store, the
filesystem corpus, the renderer, the CSV metrics sink, the JSON config file) are
modelled as explicit oracle parameters; everything the core itself computes is
translated function by function.

Modelling conventions:
* Python `str` is Lean `String`; `str.lower` is modelled per character with
  `Char.toLower` (ASCII A-Z; Korean text, which makes up all denylist flags, has no
  case and is unchanged, matching CPython).
* Python floats are modelled as exact rationals `ℚ` (every IEEE double is a
  rational); real-valued cosine similarity uses `ℝ` with `Real.sqrt`.
* Python substring tests `a in b` are modelled with `List.IsInfix` on the
  underlying character lists.
* Python dicts that hold JSON-like content documents are modelled as
  insertion-ordered association lists (`List (String × Doc)`), matching CPython's
  ordered dicts; leaves are modelled as strings (the generator schema produces
  string leaves, and `_flatten_content` applies `str` to every leaf).
-/

/-- Python `str.lower()` restricted to the character classes that occur in the
repository's texts: ASCII letters get lowercased, every other code point
(including all Hangul, which has no case) is unchanged. -/
def pyLower (s : String) : String := String.mk (s.data.map Char.toLower)

/-- Python `needle in hay` on strings: contiguous-substring test. -/
def strContains (needle hay : String) : Bool := decide (needle.data <:+: hay.data)

/-- Python `sep.join(parts)`. -/
def joinSep (sep : String) : List String → String
  | [] => ""
  | [x] => x
  | x :: y :: xs => x ++ sep ++ joinSep sep (y :: xs)

/-! ## src/core/safety.py -/

/-- `RED_FLAGS` from src/core/safety.py lines 17-24. -/
def RED_FLAGS : List String :=
  ["100% 회수", "무조건 승소", "보장합니다", "전문 변호사", "대리해 드립니다", "책임집니다"]

/-- `SOFT_FLAGS` from src/core/safety.py lines 26-35. -/
def SOFT_FLAGS : List String :=
  ["승소 가능성이 높습니다", "확실히 받을 수 있습니다", "법률 자문", "법률 상담",
   "보장된 결과", "반드시", "절대", "무조건"]

inductive SafetyStatus where
  | PASS
  | EDIT
  | DISCARD
deriving DecidableEq

def SafetyStatus.str : SafetyStatus → String
  | .PASS => "PASS"
  | .EDIT => "EDIT"
  | .DISCARD => "DISCARD"

/-- The verdict dict returned by `safety.review_content`. -/
structure SafetyVerdict where
  status : SafetyStatus
  risk_score : ℕ
  reason : String
  refined_content : Option String
deriving DecidableEq

/-- The parsed JSON object returned by the external semantic-check collaborator
(`_llm_soft_check`), with the `dict.get` defaults of src/core/safety.py lines
107-109 already applied (`status` defaults to "PASS", `reason` to "").  `none`
at the call site stands for every failure mode of `_llm_soft_check`
(configuration error, network error, malformed response) as well as a falsy
(empty) JSON object, all of which make `review_content` skip stage 3. -/
structure LLMResult where
  status : String
  reason : String
  refined_content : Option String
deriving DecidableEq

/-- `[flag for flag in RED_FLAGS if flag.lower() in text.lower()]`
(src/core/safety.py lines 84-85). -/
def hardHits (text : String) : List String :=
  RED_FLAGS.filter fun flag => strContains (pyLower flag) (pyLower text)

/-- `[flag for flag in SOFT_FLAGS if flag.lower() in text.lower()]`
(src/core/safety.py line 95). -/
def softHits (text : String) : List String :=
  SOFT_FLAGS.filter fun flag => strContains (pyLower flag) (pyLower text)

/-- `safety.review_content` (src/core/safety.py lines 72-117).  The external
semantic check is the `llm` parameter: `some r` is a successful collaborator
response, `none` any failure/unavailability (the function then falls through to
the lenient stage-4 return). -/
def review_content (llm : Option LLMResult) (text : String) : SafetyVerdict :=
  if (hardHits text).isEmpty then
    if (softHits text).isEmpty then
      match llm with
      | some r =>
        if r.status = "DISCARD" then ⟨.DISCARD, 85, r.reason, r.refined_content⟩
        else if r.status = "EDIT" then ⟨.EDIT, 55, r.reason, r.refined_content⟩
        else ⟨.PASS, 5, if r.reason = "" then "LLM pass" else r.reason, none⟩
      | none => ⟨.PASS, 5, "soft check skipped", none⟩
    else ⟨.EDIT, 60, "단정/보장 어투 감지: " ++ joinSep ", " (softHits text), none⟩
  else ⟨.DISCARD, 90, "하드 금지어 감지: " ++ joinSep ", " (hardHits text), none⟩

/-! ### Claim C3 -/

/-- C3: any text containing a hard-denylist phrase (case-insensitively) makes
`review_content` return status DISCARD with risk_score 90 and a reason listing
the matched phrases, with the same result for every behaviour of the external
semantic collaborator (it is never consulted). -/
theorem hard_denylist_forces_discard (llm : Option LLMResult) (text flag : String)
    (hmem : flag ∈ RED_FLAGS)
    (hhit : strContains (pyLower flag) (pyLower text) = true) :
    review_content llm text =
      ⟨.DISCARD, 90, "하드 금지어 감지: " ++ joinSep ", " (hardHits text), none⟩ ∧
    review_content llm text = review_content none text := by
  have hne : hardHits text ≠ [] := by
    have : flag ∈ hardHits text := List.mem_filter.mpr ⟨hmem, hhit⟩
    exact List.ne_nil_of_mem this
  have hempty : (hardHits text).isEmpty = false := by
    cases h : hardHits text with
    | nil => exact absurd h hne
    | cons a l => simp [List.isEmpty]
  constructor
  · simp [review_content, hempty]
  · simp [review_content, hempty]

/-- C3 witness: the flag "보장합니다" inside a concrete sentence fires the hard
denylist, regardless of a semantic collaborator that would have said EDIT. -/
theorem hard_denylist_forces_discard_witness :
    "보장합니다" ∈ RED_FLAGS ∧
    strContains (pyLower "보장합니다") (pyLower "저희는 전액 회수를 보장합니다!") = true ∧
    review_content (some ⟨"EDIT", "x", none⟩) "저희는 전액 회수를 보장합니다!" =
      ⟨.DISCARD, 90,
        "하드 금지어 감지: " ++ joinSep ", " (hardHits "저희는 전액 회수를 보장합니다!"), none⟩ :=
  ⟨by decide, by decide,
    (hard_denylist_forces_discard (some ⟨"EDIT", "x", none⟩)
      "저희는 전액 회수를 보장합니다!" "보장합니다" (by decide) (by decide)).1⟩

/-! ### Claim C5 -/

/-- The EEAT disclaimer condition of `compute_pui_score`
(src/core/quality.py line 140):
`"법률 자문이 아닙니다" in content_text or "법률 자문이 아닙니다".lower() in text_lower`. -/
def eeatDisclaimerCond (text : String) : Bool :=
  strContains "법률 자문이 아닙니다" text ||
    strContains (pyLower "법률 자문이 아닙니다") (pyLower text)

/-- C5: a text containing the disclaimer phrase "법률 자문이 아닙니다" (exactly the
condition the EEAT sub-score rewards with +6) that matches no hard-denylist
phrase always gets status EDIT from `review_content` — never PASS — because the
soft flag "법률 자문" is a substring of the disclaimer.  So no document can earn
the disclaimer EEAT points and a safety PASS in the same evaluation. -/
theorem disclaimer_text_never_passes (llm : Option LLMResult) (text : String)
    (hd : eeatDisclaimerCond text = true)
    (hh : hardHits text = []) :
    (review_content llm text).status = .EDIT ∧ (review_content llm text).status ≠ .PASS := by
  have hsub : ("법률 자문".data.map Char.toLower) <:+: (text.data.map Char.toLower) := by
    have hpre : ("법률 자문".data.map Char.toLower) <+: ("법률 자문이 아닙니다".data.map Char.toLower) := by
      decide
    rcases Bool.or_eq_true_iff.mp hd with hraw | hlow
    · have hinf : "법률 자문이 아닙니다".data <:+: text.data := of_decide_eq_true hraw
      exact hpre.isInfix.trans (hinf.map Char.toLower)
    · have hinf : ("법률 자문이 아닙니다".data.map Char.toLower) <:+: (text.data.map Char.toLower) :=
        of_decide_eq_true hlow
      exact hpre.isInfix.trans hinf
  have hmem : "법률 자문" ∈ softHits text := by
    refine List.mem_filter.mpr ⟨by decide, ?_⟩
    exact decide_eq_true hsub
  have hsne : (softHits text).isEmpty = false := by
    cases h : softHits text with
    | nil => exact absurd (h ▸ hmem) (List.not_mem_nil _)
    | cons a l => simp [List.isEmpty]
  have hhe : (hardHits text).isEmpty = true := by simp [hh]
  constructor
  · simp [review_content, hhe, hsne]
  · simp [review_content, hhe, hsne]

/-- C5 witness: a concrete legal-disclaimer sentence earns the EEAT disclaimer
condition yet is classified EDIT. -/
theorem disclaimer_text_never_passes_witness :
    eeatDisclaimerCond "이 글은 일반 정보이며 법률 자문이 아닙니다" = true ∧
    hardHits "이 글은 일반 정보이며 법률 자문이 아닙니다" = [] ∧
    (review_content none "이 글은 일반 정보이며 법률 자문이 아닙니다").status = .EDIT :=
  ⟨by decide, by decide,
    (disclaimer_text_never_passes none "이 글은 일반 정보이며 법률 자문이 아닙니다"
      (by decide) (by decide)).1⟩

/-! ### Claim C6 -/

/-- C6: when a text matches neither denylist and the external semantic check is
unavailable or fails (modelled by `llm = none`), `review_content` fails open:
status PASS, risk_score 5, reason "soft check skipped". -/
theorem semantic_check_fails_open (text : String)
    (hh : hardHits text = []) (hs : softHits text = []) :
    review_content none text = ⟨.PASS, 5, "soft check skipped", none⟩ := by
  simp [review_content, hh, hs]

/-- C6 witness: a flag-free greeting with an unavailable semantic check. -/
theorem semantic_check_fails_open_witness :
    hardHits "안녕하세요" = [] ∧ softHits "안녕하세요" = [] ∧
    review_content none "안녕하세요" = ⟨.PASS, 5, "soft check skipped", none⟩ :=
  ⟨by decide, by decide, semantic_check_fails_open "안녕하세요" (by decide) (by decide)⟩

/-! ## src/core/quality.py -/

/-- Python regex `\s` (the character class used by `re.split(r"\n\s*\n", ...)`
and `str.strip`), restricted to ASCII whitespace; no other whitespace code
points occur in the repository's data. -/
def isPySpace (c : Char) : Bool :=
  c = ' ' ∨ c = '\t' ∨ c = '\n' ∨ c = '\r' ∨ c = '\x0b' ∨ c = '\x0c'

/-- Python `str.strip()`. -/
def pyStrip (s : String) : String :=
  String.mk (((s.data.dropWhile isPySpace).reverse.dropWhile isPySpace).reverse)

/-- Helper for `pySplitWs`: Python `str.split()` (split on whitespace runs,
dropping empty pieces). -/
def splitWsAux : List Char → List Char → List (List Char)
  | [], acc => if acc.isEmpty then [] else [acc.reverse]
  | c :: rest, acc =>
    if isPySpace c then
      if acc.isEmpty then splitWsAux rest [] else acc.reverse :: splitWsAux rest []
    else splitWsAux rest (c :: acc)

/-- Python `str.split()` with no argument, as used for `len(joined.split())`. -/
def pySplitWs (s : String) : List String := (splitWsAux s.data []).map String.mk

/-- Python `str.split(",")` (keeps empty pieces). -/
def splitCommaAux : List Char → List Char → List (List Char)
  | [], acc => [acc.reverse]
  | c :: rest, acc =>
    if c = ',' then acc.reverse :: splitCommaAux rest [] else splitCommaAux rest (c :: acc)

/-- Python `str.split(",")`. -/
def pySplitComma (s : String) : List String := (splitCommaAux s.data []).map String.mk

/-- Index of the last '\n' in a character list, if any (used to model the
greedy `\s*` of the paragraph-separator regex). -/
def lastNewlineIdx (w : List Char) : Option ℕ :=
  match w.reverse.findIdx? (· = '\n') with
  | some k => some (w.length - 1 - k)
  | none => none

/-- Helper for `pyBlankParas`, modelling `re.split(r"\n\s*\n", text)`: a
separator match starts at a '\n' and greedily consumes whitespace up to a final
'\n' (the last newline inside the maximal whitespace run).  Fuel-indexed for
structural recursion; `fuel = text.length` always suffices since every step
consumes at least one character. -/
def blankSplitAux : ℕ → List Char → List Char → List (List Char)
  | _, [], acc => [acc.reverse]
  | 0, _ :: _, acc => [acc.reverse]
  | fuel + 1, c :: rest, acc =>
    if c = '\n' then
      let w := rest.takeWhile isPySpace
      match lastNewlineIdx w with
      | some j => acc.reverse :: blankSplitAux fuel (rest.drop (j + 1)) []
      | none => blankSplitAux fuel rest (c :: acc)
    else blankSplitAux fuel rest (c :: acc)

/-- `re.split(r"\n\s*\n", text)` from `count_unique_blocks`
(src/core/quality.py line 87). -/
def pyBlankParas (s : String) : List String :=
  (blankSplitAux s.data.length s.data []).map String.mk

/-- The `planning_info` dict threaded through every evaluator
(src/core/content_agent.py lines 82-89); `amount_band` and `keywords` are read
defensively by `count_unique_blocks` and are absent (`none`) in the dict the
production loop builds. -/
structure PlanningInfo where
  user_intent : Option String
  structure_type : Option String
  relationship : Option String
  legal_strategy : Option String
  unique_data_point : Option String
  main_keyword : Option String
  amount_band : Option String
  keywords : Option String
deriving DecidableEq

def emptyPlanning : PlanningInfo := ⟨none, none, none, none, none, none, none, none⟩

/-- Python truthiness of an optional string field (`if val:`). -/
def optTruthy : Option String → Bool
  | some s => s ≠ ""
  | none => false

/-- The keyword list built by `count_unique_blocks`
(src/core/quality.py lines 75-85). -/
def planKeywords (p : PlanningInfo) : List String :=
  (([p.main_keyword, p.unique_data_point, p.legal_strategy, p.relationship,
     p.user_intent, p.structure_type].filterMap fun o =>
      match o with
      | some s => if s ≠ "" then some s else none
      | none => none) ++
    (match p.amount_band with
     | some s => if s ≠ "" then [s] else []
     | none => []) ++
    (match p.keywords with
     | some s => if s ≠ "" then pySplitComma s else []
     | none => []))

/-- `quality.count_unique_blocks` (src/core/quality.py lines 69-94). -/
def count_unique_blocks (content_text : String) (planning : Option PlanningInfo) : ℕ :=
  let p := planning.getD emptyPlanning
  let paragraphs := ((pyBlankParas content_text).map pyStrip).filter (· ≠ "")
  let lowered := ((planKeywords p).filter (· ≠ "")).map fun k => pyStrip (pyLower k)
  paragraphs.countP fun par => lowered.any fun k => strContains k (pyLower par)

/-- Automaton form of `re.findall(r"\d[\d,\.]*", text).length`: a new match
starts at each digit not already inside a match; a match greedily consumes
digits, commas and dots. -/
def countNumsAux : List Char → Bool → ℕ
  | [], _ => 0
  | c :: rest, inNum =>
    if inNum then
      if c.isDigit ∨ c = ',' ∨ c = '.' then countNumsAux rest true
      else countNumsAux rest false
    else
      if c.isDigit then 1 + countNumsAux rest true
      else countNumsAux rest false

/-- `len(re.findall(r"\d[\d,\.]*", content_text))` (src/core/quality.py
line 127); `\d` modelled as ASCII digits. -/
def countNums (s : String) : ℕ := countNumsAux s.data false

/-- `min(len(numbers) * 2, 15)` — the numeric-token contribution to the data
sub-score (src/core/quality.py line 128). -/
def numericTokenPoints (text : String) : ℕ := min (countNums text * 2) 15

/-- The `pui_score` result dict. -/
structure PuiScores where
  total : ℕ
  structure_score : ℕ
  data_score : ℕ
  eeat_score : ℕ
deriving DecidableEq

/-- `quality.compute_pui_score` (src/core/quality.py lines 97-156). -/
def compute_pui_score (content_text : String) (planning : Option PlanningInfo)
    (safety_result : Option SafetyVerdict) : PuiScores :=
  let p := planning.getD emptyPlanning
  let intent := pyLower (p.user_intent.getD "")
  let structureTy := pyLower (p.structure_type.getD "")
  let text_lower := pyLower content_text
  let s1 := if intent = "계산" ∧ strContains "tl;dr" text_lower then 10 else 0
  let s2 := if intent = "행동유도" ∧ (strContains "단계" text_lower ∨
      strContains "1." text_lower ∨ strContains "2." text_lower) then 10 else 0
  let s3 := if intent = "정보탐색" ∧ (strContains "사례" text_lower ∨
      strContains "스토리" text_lower) then 8 else 0
  let s4 := if structureTy = "type_a" ∧ (strContains "요약" text_lower ∨
      strContains "tl;dr" text_lower) then 6 else 0
  let s5 := if structureTy = "type_b" ∧ (strContains "사례" text_lower ∨
      strContains "스토리" text_lower) then 6 else 0
  let s6 := if structureTy = "type_c" ∧ (strContains "faq" text_lower ∨
      strContains "체크리스트" text_lower) then 6 else 0
  let structure_score := min (s1 + s2 + s3 + s4 + s5 + s6) 40
  let unique_point := p.unique_data_point.getD ""
  let legal_strategy := p.legal_strategy.getD ""
  let d1 := numericTokenPoints content_text
  let d2 := if unique_point ≠ "" ∧ strContains (pyLower unique_point) text_lower then 8 else 0
  let d3 := if legal_strategy ≠ "" ∧ strContains (pyLower legal_strategy) text_lower then 6 else 0
  let d4 := if strContains "%" content_text ∨ strContains "이자" text_lower then 4 else 0
  let data_score := min (d1 + d2 + d3 + d4) 35
  let e1 := if eeatDisclaimerCond content_text then 6 else 0
  let e2 := if strContains "전문가와 상의" content_text ∨
      strContains "전문가와 상담" content_text then 6 else 0
  let e3 := if (match safety_result with
      | some sv => decide (sv.status = SafetyStatus.PASS)
      | none => false) then 6 else 0
  let e4 := if ¬ strContains "무조건" text_lower ∧ ¬ strContains "100%" text_lower ∧
      ¬ strContains "승소" text_lower then 4 else 0
  let eeat_score := min (e1 + e2 + e3 + e4) 25
  ⟨min 100 (structure_score + data_score + eeat_score), structure_score, data_score, eeat_score⟩

/-! ### Claim C7 -/

/-- C7: for every text, planning info and safety verdict, `compute_pui_score`
keeps the structure sub-score ≤ 40, the data sub-score ≤ 35, the EEAT
sub-score ≤ 25, caps the numeric-token contribution to the data sub-score at
15 (2 points per token), and returns `total = min 100 (structure + data +
eeat)`. -/
theorem pui_subscores_capped (text : String) (planning : Option PlanningInfo)
    (sv : Option SafetyVerdict) :
    (compute_pui_score text planning sv).structure_score ≤ 40 ∧
    (compute_pui_score text planning sv).data_score ≤ 35 ∧
    (compute_pui_score text planning sv).eeat_score ≤ 25 ∧
    numericTokenPoints text ≤ 15 ∧
    (compute_pui_score text planning sv).total =
      min 100 ((compute_pui_score text planning sv).structure_score +
        (compute_pui_score text planning sv).data_score +
        (compute_pui_score text planning sv).eeat_score) := by
  refine ⟨?_, ?_, ?_, ?_, rfl⟩
  · exact Nat.min_le_right _ _
  · exact Nat.min_le_right _ _
  · exact Nat.min_le_right _ _
  · exact Nat.min_le_right _ _

/-! ## Content documents (src/core/content_agent.py) -/

/-- A JSON-like content document as produced by the external generator:
nested maps (insertion-ordered, like Python dicts), lists, and leaves
(modelled as the string `str(val)` that `_flatten_content` produces). -/
inductive Doc where
  | leaf (s : String)
  | list (xs : List Doc)
  | dict (kvs : List (String × Doc))

/-!
`flattenD` is `content_agent._flatten_content` (src/core/content_agent.py
lines 22-30): depth-first walk, joining the pieces of each map/list level
with " ". -/
mutual
def flattenD : Doc → String
  | .leaf s => s
  | .list xs => joinSep " " (flattenList xs)
  | .dict kvs => joinSep " " (flattenKVs kvs)
def flattenList : List Doc → List String
  | [] => []
  | d :: ds => flattenD d :: flattenList ds
def flattenKVs : List (String × Doc) → List String
  | [] => []
  | kv :: kvs => flattenD kv.2 :: flattenKVs kvs
end

/-- `_flatten_content` applied to a top-level content dict. -/
def flatten_content (kvs : List (String × Doc)) : String := flattenD (.dict kvs)

/-! `leavesD`: the depth-first list of leaf strings of a document. -/
mutual
def leavesD : Doc → List String
  | .leaf s => [s]
  | .list xs => leavesList xs
  | .dict kvs => leavesKVs kvs
def leavesList : List Doc → List String
  | [] => []
  | d :: ds => leavesD d ++ leavesList ds
def leavesKVs : List (String × Doc) → List String
  | [] => []
  | kv :: kvs => leavesD kv.2 ++ leavesKVs kvs
end

/-! `leafyD` holds of documents in which every container (map or list), at
every depth, has at least one entry.  On such documents flattening equals the
single-space join of the leaves; an empty container contributes an empty
string and produces a double space instead. -/
mutual
def leafyD : Doc → Bool
  | .leaf _ => true
  | .list xs => !xs.isEmpty && leafyList xs
  | .dict kvs => !kvs.isEmpty && leafyKVs kvs
def leafyList : List Doc → Bool
  | [] => true
  | d :: ds => leafyD d && leafyList ds
def leafyKVs : List (String × Doc) → Bool
  | [] => true
  | kv :: kvs => leafyD kv.2 && leafyKVs kvs
end

theorem joinSep_append (sep : String) :
    ∀ a b : List String, a ≠ [] → b ≠ [] →
      joinSep sep (a ++ b) = joinSep sep a ++ sep ++ joinSep sep b
  | [], _, ha, _ => absurd rfl ha
  | [x], b, _, hb => by
    cases b with
    | nil => exact absurd rfl hb
    | cons y ys => simp [joinSep]
  | x :: x' :: a', b, _, hb => by
    have ih := joinSep_append sep (x' :: a') b (by simp) hb
    calc joinSep sep ((x :: x' :: a') ++ b)
        = x ++ sep ++ joinSep sep ((x' :: a') ++ b) := rfl
      _ = x ++ sep ++ (joinSep sep (x' :: a') ++ sep ++ joinSep sep b) := by rw [ih]
      _ = joinSep sep (x :: x' :: a') ++ sep ++ joinSep sep b := by
          show x ++ sep ++ _ = x ++ sep ++ joinSep sep (x' :: a') ++ sep ++ joinSep sep b
          simp [String.append_assoc]

mutual
theorem leavesD_ne_nil : ∀ d : Doc, leafyD d = true → leavesD d ≠ []
  | .leaf s, _ => by simp [leavesD]
  | .list xs, h => by
    rw [leafyD] at h
    rcases Bool.and_eq_true_iff.mp h with ⟨h1, h2⟩
    refine leavesList_ne_nil xs h2 ?_
    cases xs with
    | nil => simp at h1
    | cons a l => simp
  | .dict kvs, h => by
    rw [leafyD] at h
    rcases Bool.and_eq_true_iff.mp h with ⟨h1, h2⟩
    refine leavesKVs_ne_nil kvs h2 ?_
    cases kvs with
    | nil => simp at h1
    | cons a l => simp
theorem leavesList_ne_nil : ∀ xs : List Doc, leafyList xs = true → xs ≠ [] → leavesList xs ≠ []
  | [], _, hne => absurd rfl hne
  | d :: ds, h, _ => by
    rw [leafyList] at h
    rcases Bool.and_eq_true_iff.mp h with ⟨h1, _⟩
    have hd := leavesD_ne_nil d h1
    rw [leavesList]
    intro hcon
    rcases List.append_eq_nil.mp hcon with ⟨he, _⟩
    exact hd he
theorem leavesKVs_ne_nil : ∀ kvs : List (String × Doc), leafyKVs kvs = true → kvs ≠ [] →
    leavesKVs kvs ≠ []
  | [], _, hne => absurd rfl hne
  | kv :: kvs, h, _ => by
    rw [leafyKVs] at h
    rcases Bool.and_eq_true_iff.mp h with ⟨h1, _⟩
    have hd := leavesD_ne_nil kv.2 h1
    rw [leavesKVs]
    intro hcon
    rcases List.append_eq_nil.mp hcon with ⟨he, _⟩
    exact hd he
end

mutual
theorem flattenD_leafy : ∀ d : Doc, leafyD d = true → flattenD d = joinSep " " (leavesD d)
  | .leaf s, _ => by simp [flattenD, leavesD, joinSep]
  | .list xs, h => by
    rw [leafyD] at h
    rcases Bool.and_eq_true_iff.mp h with ⟨_, h2⟩
    rw [flattenD, leavesD]
    exact flattenList_leafy xs h2
  | .dict kvs, h => by
    rw [leafyD] at h
    rcases Bool.and_eq_true_iff.mp h with ⟨_, h2⟩
    rw [flattenD, leavesD]
    exact flattenKVs_leafy kvs h2
theorem flattenList_leafy : ∀ xs : List Doc, leafyList xs = true →
    joinSep " " (flattenList xs) = joinSep " " (leavesList xs)
  | [], _ => rfl
  | [d], h => by
    rw [leafyList] at h
    rcases Bool.and_eq_true_iff.mp h with ⟨h1, _⟩
    rw [flattenList, flattenList, leavesList, leavesList, List.append_nil]
    rw [show joinSep " " [flattenD d] = flattenD d from rfl]
    exact flattenD_leafy d h1
  | d :: d' :: ds, h => by
    rw [leafyList] at h
    rcases Bool.and_eq_true_iff.mp h with ⟨h1, h2⟩
    have hrest : joinSep " " (flattenList (d' :: ds)) = joinSep " " (leavesList (d' :: ds)) :=
      flattenList_leafy (d' :: ds) h2
    have hd := flattenD_leafy d h1
    have hdne := leavesD_ne_nil d h1
    have hlne : leavesList (d' :: ds) ≠ [] := leavesList_ne_nil (d' :: ds) h2 (by simp)
    calc joinSep " " (flattenList (d :: d' :: ds))
        = flattenD d ++ " " ++ joinSep " " (flattenList (d' :: ds)) := by
          rw [flattenList, flattenList, joinSep]
      _ = joinSep " " (leavesD d) ++ " " ++ joinSep " " (leavesList (d' :: ds)) := by
          rw [hd, hrest]
      _ = joinSep " " (leavesD d ++ leavesList (d' :: ds)) :=
          (joinSep_append " " (leavesD d) (leavesList (d' :: ds)) hdne hlne).symm
      _ = joinSep " " (leavesList (d :: d' :: ds)) := rfl
theorem flattenKVs_leafy : ∀ kvs : List (String × Doc), leafyKVs kvs = true →
    joinSep " " (flattenKVs kvs) = joinSep " " (leavesKVs kvs)
  | [], _ => rfl
  | [kv], h => by
    rw [leafyKVs] at h
    rcases Bool.and_eq_true_iff.mp h with ⟨h1, _⟩
    rw [flattenKVs, flattenKVs, leavesKVs, leavesKVs, List.append_nil]
    rw [show joinSep " " [flattenD kv.2] = flattenD kv.2 from rfl]
    exact flattenD_leafy kv.2 h1
  | kv :: kv' :: kvs, h => by
    rw [leafyKVs] at h
    rcases Bool.and_eq_true_iff.mp h with ⟨h1, h2⟩
    have hrest : joinSep " " (flattenKVs (kv' :: kvs)) = joinSep " " (leavesKVs (kv' :: kvs)) :=
      flattenKVs_leafy (kv' :: kvs) h2
    have hd := flattenD_leafy kv.2 h1
    have hdne := leavesD_ne_nil kv.2 h1
    have hlne : leavesKVs (kv' :: kvs) ≠ [] :=
      leavesKVs_ne_nil (kv' :: kvs) h2 (by simp)
    calc joinSep " " (flattenKVs (kv :: kv' :: kvs))
        = flattenD kv.2 ++ " " ++ joinSep " " (flattenKVs (kv' :: kvs)) := by
          rw [flattenKVs, flattenKVs, joinSep]
      _ = joinSep " " (leavesD kv.2) ++ " " ++ joinSep " " (leavesKVs (kv' :: kvs)) := by
          rw [hd, hrest]
      _ = joinSep " " (leavesD kv.2 ++ leavesKVs (kv' :: kvs)) :=
          (joinSep_append " " (leavesD kv.2) (leavesKVs (kv' :: kvs)) hdne hlne).symm
      _ = joinSep " " (leavesKVs (kv :: kv' :: kvs)) := rfl
end

/-! ### Claim C9 -/

/-- C9 (amended): `_flatten_content` is a pure, deterministic function of the
document (equal documents flatten equally), and for documents in which every
container at every depth is nonempty it equals the depth-first concatenation
of all leaf strings joined by single spaces.  The single-space guarantee needs
the nonemptiness proviso: an empty container contributes an empty string to
its parent's join, producing consecutive spaces (see the counterexample). -/
theorem flatten_deterministic_single_space_join (d₁ d₂ : Doc)
    (heq : d₁ = d₂) (hleafy : leafyD d₁ = true) :
    flattenD d₁ = flattenD d₂ ∧ flattenD d₁ = joinSep " " (leavesD d₁) :=
  ⟨heq ▸ rfl, flattenD_leafy d₁ hleafy⟩

/-- C9 witness: a two-level document with nonempty containers flattens to its
leaves joined by single spaces. -/
theorem flatten_deterministic_single_space_join_witness :
    leafyD (.dict [("hero", .dict [("headline", .leaf "제목"), ("intro", .leaf "소개")]),
      ("faq", .list [.leaf "질문", .leaf "답변"])]) = true ∧
    flattenD (.dict [("hero", .dict [("headline", .leaf "제목"), ("intro", .leaf "소개")]),
      ("faq", .list [.leaf "질문", .leaf "답변"])]) =
      joinSep " " (leavesD (.dict [("hero", .dict [("headline", .leaf "제목"),
        ("intro", .leaf "소개")]), ("faq", .list [.leaf "질문", .leaf "답변"])])) :=
  ⟨by decide,
    (flatten_deterministic_single_space_join _ _ rfl (by decide)).2⟩

/-- C9 counterexample: with an empty map between two leaves, the flattened
text separates the neighbouring leaf strings "x" and "y" by two spaces, not
exactly one — the claim's "each leaf string separated from its neighbours by
exactly one space" fails on documents containing empty containers. -/
theorem flatten_not_single_space_on_empty_container :
    flattenD (.dict [("a", .leaf "x"), ("b", .dict []), ("c", .leaf "y")]) = "x  y" ∧
    leavesD (.dict [("a", .leaf "x"), ("b", .dict []), ("c", .leaf "y")]) = ["x", "y"] ∧
    joinSep " " ["x", "y"] = "x y" ∧
    ("x  y" : String) ≠ "x y" :=
  ⟨rfl, rfl, rfl, by decide⟩

/-! ## Document mutation before evaluation (src/core/content_agent.py lines 116-120) -/

/-- Python dict lookup `d.get(k)` on an association-list document map. -/
def dictGet : List (String × Doc) → String → Option Doc
  | [], _ => none
  | (k', v) :: kvs, k => if k' = k then some v else dictGet kvs k

/-- Python dict assignment `d[k] = v`: replaces the value in place if the key
exists (keys are unique in dicts originating from Python), appends otherwise. -/
def dictSet : List (String × Doc) → String → Doc → List (String × Doc)
  | [], k, v => [(k, v)]
  | (k', v') :: kvs, k, v => if k' = k then (k, v) :: kvs else (k', v') :: dictSet kvs k v

/-- Python `k in d`. -/
def hasKey : List (String × Doc) → String → Bool
  | [], _ => false
  | (k', _) :: kvs, k => decide (k' = k) || hasKey kvs k

/-- Python truthiness of a JSON-like value (`if not pm.get("slug")`). -/
def docTruthy : Doc → Bool
  | .leaf s => s ≠ ""
  | .list xs => !xs.isEmpty
  | .dict kvs => !kvs.isEmpty

/-- `content_agent._inject_slug` (src/core/content_agent.py lines 33-41),
as a pure function on the document: no-op when the case has no (truthy) slug;
otherwise ensures `content["page_meta"]["slug"]` is the case slug, replacing a
non-dict `page_meta` value by a fresh one-entry dict exactly as the Python
code does. -/
def inject_slug (slug : Option String) (content : List (String × Doc)) :
    List (String × Doc) :=
  if optTruthy slug then
    match dictGet content "page_meta" with
    | some (.dict pm) =>
      match dictGet pm "slug" with
      | some v =>
        if docTruthy v then content
        else dictSet content "page_meta" (.dict (dictSet pm "slug" (.leaf (slug.getD ""))))
      | none => dictSet content "page_meta" (.dict (dictSet pm "slug" (.leaf (slug.getD ""))))
    | _ => dictSet content "page_meta" (.dict [("slug", .leaf (slug.getD ""))])
  else content

/-- The structure-type stamp of the production loop
(src/core/content_agent.py lines 118-120):
`if planning_info.get("structure_type") and "structure_type" not in content:
content["structure_type"] = planning_info["structure_type"]`. -/
def stamp_structure_type (planning : PlanningInfo) (content : List (String × Doc)) :
    List (String × Doc) :=
  if optTruthy planning.structure_type ∧ hasKey content "structure_type" = false then
    content ++ [("structure_type", .leaf (planning.structure_type.getD ""))]
  else content

/-- Everything the orchestrator does to a generated document between receiving
it and flattening it for evaluation (src/core/content_agent.py lines 116-120). -/
def prepareContent (slug : Option String) (planning : PlanningInfo)
    (content : List (String × Doc)) : List (String × Doc) :=
  stamp_structure_type planning (inject_slug slug content)

theorem dictGet_dictSet_same (kvs : List (String × Doc)) (k : String) (v : Doc) :
    dictGet (dictSet kvs k v) k = some v := by
  induction kvs with
  | nil => simp [dictSet, dictGet]
  | cons kv kvs ih =>
    obtain ⟨a, b⟩ := kv
    by_cases h : a = k
    · simp [dictSet, dictGet, h]
    · simp [dictSet, dictGet, h, ih]

theorem dictGet_dictSet_ne (kvs : List (String × Doc)) (k k' : String) (v : Doc)
    (h : k' ≠ k) : dictGet (dictSet kvs k v) k' = dictGet kvs k' := by
  have hkk : ¬ (k = k') := fun he => h he.symm
  induction kvs with
  | nil => simp [dictSet, dictGet, hkk]
  | cons kv kvs ih =>
    obtain ⟨a, b⟩ := kv
    by_cases ha : a = k
    · have hak : ¬ (a = k') := ha ▸ hkk
      simp [dictSet, dictGet, ha, hak, hkk]
    · by_cases hb : a = k'
      · simp [dictSet, dictGet, ha, hb, h]
      · simp [dictSet, dictGet, ha, hb, ih]

theorem hasKey_dictSet_ne (kvs : List (String × Doc)) (k k' : String) (v : Doc)
    (h : k' ≠ k) : hasKey (dictSet kvs k v) k' = hasKey kvs k' := by
  have hkk : ¬ (k = k') := fun he => h he.symm
  induction kvs with
  | nil => simp [dictSet, hasKey, hkk]
  | cons kv kvs ih =>
    obtain ⟨a, b⟩ := kv
    by_cases ha : a = k
    · have hak : ¬ (a = k') := ha ▸ hkk
      simp [dictSet, hasKey, ha, hak, hkk]
    · simp [dictSet, hasKey, ha, ih]

theorem dictGet_append_ne (kvs : List (String × Doc)) (k k' : String) (v : Doc)
    (h : k' ≠ k) : dictGet (kvs ++ [(k, v)]) k' = dictGet kvs k' := by
  have hkk : ¬ (k = k') := fun he => h he.symm
  induction kvs with
  | nil => simp [dictGet, hkk]
  | cons kv kvs ih =>
    obtain ⟨a, b⟩ := kv
    by_cases hb : a = k'
    · simp [dictGet, hb]
    · simp [dictGet, hb, ih]

theorem dictGet_append_self (kvs : List (String × Doc)) (k : String) (v : Doc)
    (h : hasKey kvs k = false) : dictGet (kvs ++ [(k, v)]) k = some v := by
  induction kvs with
  | nil => simp [dictGet]
  | cons kv kvs ih =>
    obtain ⟨a, b⟩ := kv
    rw [hasKey] at h
    rcases Bool.or_eq_false_iff.mp h with ⟨h1, h2⟩
    have ha : ¬ (a = k) := of_decide_eq_false h1
    simp [dictGet, ha, ih h2]

theorem inject_slug_frame (slug : Option String) (content : List (String × Doc))
    (k : String) (hk : k ≠ "page_meta") :
    dictGet (inject_slug slug content) k = dictGet content k := by
  rw [inject_slug]
  by_cases ht : optTruthy slug = true
  · rw [if_pos ht]
    split
    · split
      · split
        · rfl
        · exact dictGet_dictSet_ne _ _ _ _ hk
      · exact dictGet_dictSet_ne _ _ _ _ hk
    · exact dictGet_dictSet_ne _ _ _ _ hk
  · rw [if_neg ht]

theorem inject_slug_hasKey_frame (slug : Option String) (content : List (String × Doc))
    (k : String) (hk : k ≠ "page_meta") :
    hasKey (inject_slug slug content) k = hasKey content k := by
  rw [inject_slug]
  by_cases ht : optTruthy slug = true
  · rw [if_pos ht]
    split
    · split
      · split
        · rfl
        · exact hasKey_dictSet_ne _ _ _ _ hk
      · exact hasKey_dictSet_ne _ _ _ _ hk
    · exact hasKey_dictSet_ne _ _ _ _ hk
  · rw [if_neg ht]

theorem inject_slug_page_meta (slug : Option String) (content : List (String × Doc)) :
    dictGet (inject_slug slug content) "page_meta" = dictGet content "page_meta" ∨
    (optTruthy slug = true ∧ ∃ pm,
      dictGet (inject_slug slug content) "page_meta" = some (.dict pm) ∧
      dictGet pm "slug" = some (.leaf (slug.getD ""))) := by
  rw [inject_slug]
  by_cases ht : optTruthy slug = true
  · rw [if_pos ht]
    split
    · split
      · split
        · exact Or.inl rfl
        · exact Or.inr ⟨ht, _, dictGet_dictSet_same _ _ _, dictGet_dictSet_same _ _ _⟩
      · exact Or.inr ⟨ht, _, dictGet_dictSet_same _ _ _, dictGet_dictSet_same _ _ _⟩
    · refine Or.inr ⟨ht, [("slug", .leaf (slug.getD ""))], dictGet_dictSet_same _ _ _, ?_⟩
      simp [dictGet]
  · rw [if_neg ht]
    exact Or.inl rfl

/-! ### Claim C10 -/

/-- C10 (amended): between receiving a generated document and evaluating it the
orchestrator changes at most the `page_meta` and `structure_type` entries;
every other top-level key keeps its value.  `structure_type` is only ever
stamped from the planning info when the key is absent and the planning value
is truthy.  `page_meta` is either untouched or becomes a dict whose `"slug"`
entry is the Case's slug — but (contrary to the claim's "every other field of
the document is left unchanged") when the existing `page_meta` value is not a
dict it is replaced wholesale and its old value is lost (see the
counterexample). -/
theorem prepare_content_frame (slug : Option String) (planning : PlanningInfo)
    (content : List (String × Doc)) :
    (∀ k, k ≠ "page_meta" → k ≠ "structure_type" →
      dictGet (prepareContent slug planning content) k = dictGet content k) ∧
    (dictGet (prepareContent slug planning content) "structure_type" =
        dictGet content "structure_type" ∨
      (optTruthy planning.structure_type = true ∧
        hasKey content "structure_type" = false ∧
        dictGet (prepareContent slug planning content) "structure_type" =
          some (.leaf (planning.structure_type.getD "")))) ∧
    (dictGet (prepareContent slug planning content) "page_meta" =
        dictGet content "page_meta" ∨
      (optTruthy slug = true ∧ ∃ pm,
        dictGet (prepareContent slug planning content) "page_meta" = some (.dict pm) ∧
        dictGet pm "slug" = some (.leaf (slug.getD "")))) := by
  have hstne : ("structure_type" : String) ≠ "page_meta" := by decide
  have hpmne : ("page_meta" : String) ≠ "structure_type" := by decide
  refine ⟨?_, ?_, ?_⟩
  · intro k hk1 hk2
    rw [prepareContent, stamp_structure_type]
    by_cases hc : optTruthy planning.structure_type = true ∧
        hasKey (inject_slug slug content) "structure_type" = false
    · rw [if_pos hc, dictGet_append_ne _ _ _ _ hk2]
      exact inject_slug_frame slug content k hk1
    · rw [if_neg hc]
      exact inject_slug_frame slug content k hk1
  · rw [prepareContent, stamp_structure_type]
    by_cases hc : optTruthy planning.structure_type = true ∧
        hasKey (inject_slug slug content) "structure_type" = false
    · rw [if_pos hc]
      refine Or.inr ⟨hc.1, ?_, dictGet_append_self _ _ _ hc.2⟩
      rw [← inject_slug_hasKey_frame slug content "structure_type" hstne]
      exact hc.2
    · rw [if_neg hc]
      exact Or.inl (inject_slug_frame slug content "structure_type" hstne)
  · rw [prepareContent, stamp_structure_type]
    by_cases hc : optTruthy planning.structure_type = true ∧
        hasKey (inject_slug slug content) "structure_type" = false
    · rw [if_pos hc, dictGet_append_ne _ _ _ _ hpmne]
      exact inject_slug_page_meta slug content
    · rw [if_neg hc]
      exact inject_slug_page_meta slug content

/-- C10 witness: on a concrete document the frame part of the theorem gives
that the `"faq_section"` entry survives slug injection and structure stamping
unchanged. -/
theorem prepare_content_frame_witness :
    dictGet (prepareContent (some "slug-1")
      ⟨none, some "type_a", none, none, none, none, none, none⟩
      [("page_meta", .dict []), ("faq_section", .leaf "질문 답변")]) "faq_section" =
    dictGet [("page_meta", .dict []), ("faq_section", .leaf "질문 답변")] "faq_section" :=
  (prepare_content_frame (some "slug-1")
    ⟨none, some "type_a", none, none, none, none, none, none⟩
    [("page_meta", .dict []), ("faq_section", .leaf "질문 답변")]).1
    "faq_section" (by decide) (by decide)

/-- C10 counterexample: when the generated document carries a non-dict
`page_meta` value, slug injection replaces that value wholesale — the original
leaf "legacy" is destroyed, which is a mutation beyond "injecting the Case's
slug when the document has none" with "every other field … left unchanged". -/
theorem inject_slug_clobbers_nondict_page_meta :
    prepareContent (some "slug-1") emptyPlanning
        [("page_meta", .leaf "legacy"), ("body", .leaf "본문")] =
      [("page_meta", .dict [("slug", .leaf "slug-1")]), ("body", .leaf "본문")] ∧
    dictGet [("page_meta", .leaf "legacy"), ("body", .leaf "본문")] "page_meta" =
      some (.leaf "legacy") ∧
    (Doc.dict [("slug", .leaf "slug-1")] ≠ .leaf "legacy") :=
  ⟨rfl, rfl, by intro h; cases h⟩

/-! ## Similarity engine (src/core/quality.py lines 18-62) -/

/-- Python regex `\w` (the complement of the `\W+` split in `_tokenize`):
ASCII alphanumerics, underscore, and Hangul syllables (the only non-ASCII word
characters occurring in this repository's texts). -/
def isWordChar (c : Char) : Bool :=
  c.isAlphanum ∨ c = '_' ∨ (0xAC00 ≤ c.toNat ∧ c.toNat ≤ 0xD7A3)

/-- Helper for `_tokenize`: extract the maximal word-character runs. -/
def tokenizeAux : List Char → List Char → List (List Char)
  | [], acc => if acc.isEmpty then [] else [acc.reverse]
  | c :: rest, acc =>
    if isWordChar c then tokenizeAux rest (c :: acc)
    else if acc.isEmpty then tokenizeAux rest []
    else acc.reverse :: tokenizeAux rest []

/-- `quality._tokenize` (src/core/quality.py lines 18-19):
`[t for t in re.split(r"\W+", text.lower()) if t]`. -/
def tokenize (s : String) : List String := (tokenizeAux (pyLower s).data []).map String.mk

/-- `sum(a[k] * b.get(k, 0) for k in a)` of `_cosine`: the dot product of the
term-frequency vectors, summed over the distinct tokens of `a`. -/
def dot (a b : List String) : ℕ :=
  (a.dedup.map fun k => a.count k * b.count k).sum

/-- `sum(v * v for v in a.values())`: the squared Euclidean norm of the
term-frequency vector of `a`. -/
def normSq (a : List String) : ℕ :=
  (a.dedup.map fun k => a.count k * a.count k).sum

/-- `quality._cosine` (src/core/quality.py lines 22-30), on the token lists
whose `Counter`s the Python code compares: 0.0 when either counter is empty or
either norm is zero, else dot / (‖a‖·‖b‖). -/
noncomputable def cosine (a b : List String) : ℝ :=
  if a = [] ∨ b = [] then 0
  else if Real.sqrt (normSq a) = 0 ∨ Real.sqrt (normSq b) = 0 then 0
  else (dot a b : ℝ) / (Real.sqrt (normSq a) * Real.sqrt (normSq b))

/-- The corpus fold of `compute_similarity_against_recent`
(src/core/quality.py lines 48-57): running maximum, starting at 0.0. -/
noncomputable def maxSimLoop (draftToks : List String) : List String → ℝ → ℝ
  | [], maxSim => maxSim
  | t :: rest, maxSim =>
    maxSimLoop draftToks rest
      (if cosine draftToks (tokenize t) > maxSim then cosine draftToks (tokenize t) else maxSim)

/-- `quality.compute_similarity_against_recent` (src/core/quality.py lines
45-57) with the corpus retrieval made explicit: `corpus` is the list of texts
the external store actually yields (the db/slug lookup and the skipping of
texts that fail to load are collaborator behaviour outside the core). -/
noncomputable def compute_similarity_against_recent (draft : String)
    (corpus : List String) : ℝ :=
  maxSimLoop (tokenize draft) corpus 0

theorem normSq_pos (a : List String) (ha : a ≠ []) : 0 < normSq a := by
  obtain ⟨x, hx⟩ := List.exists_mem_of_ne_nil a ha
  have hxd : x ∈ a.dedup := List.mem_dedup.mpr hx
  have hc : 0 < a.count x := List.count_pos_iff.mpr hx
  have hterm : 1 ≤ a.count x * a.count x :=
    Nat.one_le_iff_ne_zero.mpr (Nat.mul_ne_zero (Nat.pos_iff_ne_zero.mp hc)
      (Nat.pos_iff_ne_zero.mp hc))
  have hmem : a.count x * a.count x ∈ a.dedup.map fun k => a.count k * a.count k :=
    List.mem_map_of_mem _ hxd
  have hle := List.single_le_sum (fun y _ => Nat.zero_le y) _ hmem
  unfold normSq
  omega

theorem cosine_perm_self (a b : List String) (hperm : b.Perm a) (ha : a ≠ []) :
    cosine a b = 1 := by
  have hb : b ≠ [] := by
    intro h
    subst h
    exact ha hperm.symm.eq_nil
  have hcount : ∀ k, b.count k = a.count k := fun k => (hperm.count_eq k)
  have hdot : dot a b = normSq a := by
    unfold dot normSq
    refine congrArg List.sum (List.map_congr_left ?_)
    intro k _
    rw [hcount k]
  have hpos : 0 < normSq a := normSq_pos a ha
  have hposR : (0 : ℝ) < (normSq a : ℝ) := by exact_mod_cast hpos
  have hsqrt_ne : Real.sqrt (normSq a) ≠ 0 := by
    rw [ne_eq, Real.sqrt_eq_zero (le_of_lt hposR)]
    exact ne_of_gt hposR
  have hnormb : normSq b = normSq a := by
    unfold normSq
    have hd : b.dedup.Perm a.dedup := hperm.dedup
    have h1 : (b.dedup.map fun k => b.count k * b.count k).sum =
        (a.dedup.map fun k => b.count k * b.count k).sum :=
      (hd.map _).sum_eq
    rw [h1]
    refine congrArg List.sum (List.map_congr_left ?_)
    intro k _
    rw [hcount k]
  rw [cosine, if_neg (by push_neg; exact ⟨ha, hb⟩), hnormb, hdot,
    if_neg (by push_neg; exact ⟨hsqrt_ne, hsqrt_ne⟩),
    Real.mul_self_sqrt (le_of_lt hposR)]
  exact div_self (ne_of_gt hposR)

/-! ### Claim C8 -/

/-- C8 (amended): similarity against an empty corpus is 0.0 for every text;
similarity against a one-member corpus whose member has the same token
multiset as the text is 1.0 *provided the text has at least one token* — for
a token-less text (no word characters) the empty-counter guard of `_cosine`
returns 0.0 instead (see the counterexample).  The score is the running
maximum of pairwise cosine similarities, 0.0 for pairs where either vector is
empty or has zero norm. -/
theorem similarity_empty_corpus_and_self (t u : String)
    (hperm : (tokenize u).Perm (tokenize t)) (hne : tokenize t ≠ []) :
    compute_similarity_against_recent t [] = 0 ∧
    compute_similarity_against_recent t [u] = 1 := by
  constructor
  · rfl
  · have hc : cosine (tokenize t) (tokenize u) = 1 := cosine_perm_self _ _ hperm hne
    unfold compute_similarity_against_recent maxSimLoop
    rw [hc]
    rw [if_pos (by norm_num)]
    rfl

/-- C8 witness: a Korean three-token text has similarity 0.0 against the empty
corpus and 1.0 against itself. -/
theorem similarity_empty_corpus_and_self_witness :
    tokenize "미수금 회수 절차 안내" ≠ [] ∧
    compute_similarity_against_recent "미수금 회수 절차 안내" [] = 0 ∧
    compute_similarity_against_recent "미수금 회수 절차 안내" ["미수금 회수 절차 안내"] = 1 :=
  ⟨by decide,
    similarity_empty_corpus_and_self "미수금 회수 절차 안내" "미수금 회수 절차 안내"
      (List.Perm.refl _) (by decide)⟩

/-- C8 counterexample: the claim "similarity(T, [T]) = 1.0 for every text T"
fails for a text with no word characters: "!!!" tokenizes to the empty list,
`_cosine`'s empty-counter guard yields 0.0, and the similarity stays 0.0 ≠
1.0. -/
theorem similarity_self_not_one_for_tokenless :
    compute_similarity_against_recent "!!!" ["!!!"] = 0 ∧ (0 : ℝ) ≠ 1 := by
  constructor
  · have ht : tokenize "!!!" = [] := by decide
    unfold compute_similarity_against_recent maxSimLoop
    rw [ht, cosine, if_pos (Or.inl rfl), if_neg (lt_irrefl 0)]
    rfl
  · norm_num

/-! ## Production loop orchestrator (src/core/content_agent.py lines 69-286)

External collaborators become oracle fields of `Env`, indexed by the attempt
number at which the call happens:
* `writer` is `writer_client.generate` (attempt 1) / `writer_client.refine_draft`
  (later attempts); its extra Python arguments (`case_row`, `safe_test_mode`,
  `planning_info`, and for refine the dict `{**case_row, "draft_summary":
  last_content}`) are fixed per run or derived from the explicit feedback /
  last-content arguments, so the oracle receives the attempt number, the
  carried feedback and the carried last content, and may behave arbitrarily;
* `llm` is the semantic-check collaborator consulted by `review_content`;
* `simOracle` is `quality.compute_similarity_to_existing(joined, limit=100)`,
  whose value depends on the external corpus (db rows and files on disk);
* `renderer` is `renderer_client.render_and_save` together with the rest of
  the publish `try:` block — `.error msg` models any exception raised there;
* `similarity_threshold` / `min_pui` are `_load_similarity_threshold()` and
  `_load_min_pui()` — reads of the external config.json with defaults 0.4 / 80.
Side effects (`db.update_status`, `metrics.log_case_result`, the render call)
are recorded as an event trace. -/

/-- `quality.compute_uniqueness_score` (src/core/quality.py lines 65-66). -/
def compute_uniqueness_score (max_similarity : ℚ) : ℚ :=
  1 - max 0 (min 1 max_similarity)

/-- Floor of a rational (numerator floor-divided by denominator). -/
def ratFloor (q : ℚ) : ℤ := Int.fdiv q.num q.den

/-- Absolute value of a rational. -/
def ratAbs (q : ℚ) : ℚ := if q < 0 then -q else q

/-- Round to nearest integer, ties to even. -/
def halfEvenRound (x : ℚ) : ℤ :=
  if x - ratFloor x > 1/2 then ratFloor x + 1
  else if x - ratFloor x < 1/2 then ratFloor x
  else if ratFloor x % 2 = 0 then ratFloor x else ratFloor x + 1

/-- Python `f"{q:.2f}"` on the (rational) value of the float: sign of the
value, then the magnitude rounded half-to-even at two decimals. -/
def fmt2 (q : ℚ) : String :=
  (if q < 0 then "-" else "") ++
    toString ((halfEvenRound (ratAbs q * 100)).toNat / 100) ++ "." ++
    (if (halfEvenRound (ratAbs q * 100)).toNat % 100 < 10 then "0" else "") ++
    toString ((halfEvenRound (ratAbs q * 100)).toNat % 100)

/-- `needs_refine_similarity` (src/core/content_agent.py line 161). -/
def qualityNeedsSim (sim thr : ℚ) : Bool := decide (sim > thr)

/-- `needs_refine_uniqueness` (src/core/content_agent.py line 162);
`(unique_block_count or 0)` is the identity on ℕ. -/
def qualityNeedsUniq (uniq : ℚ) (ubc : ℕ) : Bool :=
  decide (uniq < 3/5) || decide (ubc < 3)

/-- The quality gate of line 164: retry/discard when either condition holds. -/
def qualityFails (sim uniq : ℚ) (ubc : ℕ) (thr : ℚ) : Bool :=
  qualityNeedsSim sim thr || qualityNeedsUniq uniq ubc

/-- The feedback built on a failed, non-final quality gate
(src/core/content_agent.py lines 182-189). -/
def qualityFeedback (sim uniq : ℚ) (ubc : ℕ) (thr : ℚ) : String :=
  joinSep " / "
    ((if qualityNeedsSim sim thr then ["유사도 " ++ fmt2 sim ++ " > " ++ fmt2 thr] else []) ++
      (if qualityNeedsUniq uniq ubc then
        ["유니크도 " ++ fmt2 uniq ++ " / 고유블록 " ++ toString ubc ++ " (기준: 0.6+, 3+)"]
      else [])) ++ " -> 더 독창적인 구조/표현/예시를 추가하세요."

/-- The feedback built on a failed, non-final PUI check
(src/core/content_agent.py lines 226-228). -/
def puiFeedback (total : ℕ) (minPui : ℤ) : String :=
  "PUI " ++ toString total ++ " < 기준 " ++ toString minPui ++
    ". 구조/데이터/EEAT를 강화해 다시 작성하세요."

/-- The case row read from the SQLite store, restricted to the fields the
loop accesses via `.get`; `unique_data_point` and `main_keyword` are not
columns of the `cases` table, so `dict(row).get(...)` yields `None` for them
in reality, but the model keeps them optional like every other `.get`. -/
structure CaseRow where
  slug : Option String
  category : Option String
  user_intent : Option String
  structure_type : Option String
  relationship : Option String
  legal_strategy : Option String
  unique_data_point : Option String
  main_keyword : Option String

/-- The `planning_info` dict built at src/core/content_agent.py lines 82-89
(no `amount_band` / `keywords` keys). -/
def planningOf (c : CaseRow) : PlanningInfo :=
  ⟨c.user_intent, c.structure_type, c.relationship, c.legal_strategy,
    c.unique_data_point, c.main_keyword, none, none⟩

/-- The external collaborators and configuration of one `run_production_loop`
invocation (see the section comment). -/
structure Env where
  getCase : Option CaseRow
  writer : ℕ → String → Option (String ⊕ List (String × Doc)) →
    Option (List (String × Doc))
  llm : ℕ → Option LLMResult
  simOracle : ℕ → ℚ
  renderer : ℕ → Except String Unit
  similarity_threshold : ℚ
  min_pui : ℤ

/-- The loop-carried mutable state of `run_production_loop`
(src/core/content_agent.py lines 90-98): the carried feedback and content,
and the metric variables that persist across attempts. -/
structure LoopState where
  last_feedback : String
  last_content : Option (String ⊕ List (String × Doc))
  similarity_score : Option ℚ
  uniqueness_score : Option ℚ
  unique_block_count : Option ℕ
  pui_scores : Option PuiScores
  safety_status : Option String

def initLoopState : LoopState := ⟨"", none, none, none, none, none, none⟩

/-- One row passed to `metrics.log_case_result`
(src/core/metrics.py lines 45-62): its 16 parameters in order. -/
structure MetricsRow where
  case_id : String
  slug : String
  status : String
  reason : Option String
  safety_status : Option String
  similarity_score : Option ℚ
  uniqueness_score : Option ℚ
  unique_block_count : Option ℕ
  word_count : Option ℕ
  pui_total : Option ℕ
  pui_structure : Option ℕ
  pui_data : Option ℕ
  pui_eeat : Option ℕ
  user_intent : Option String
  structure_type : Option String
  domain_type : String

/-- The observable side effects of one run, in order. -/
inductive Event where
  | genCall (attempt : ℕ) (feedback : String)
  | updateStatus (status : String)
  | logMetrics (row : MetricsRow)
  | renderCall (attempt : ℕ)

/-- The result dict of `run_production_loop`. -/
inductive LoopOutcome where
  | error (reason : String)
  | discarded (reason : String)
  | published (html_path : String) (attempts : ℕ)
      (content : Option (List (String × Doc)))

/-- An uncaught Python exception escaping `run_production_loop`:
`typeErrorLogCaseResult` is the TypeError raised at
src/core/content_agent.py lines 167-180, where `metrics.log_case_result` is
called with 12 positional arguments though its signature
(src/core/metrics.py lines 45-61) has 15 required parameters — `pui_eeat`,
`user_intent` and `structure_type` are missing. -/
inductive PyError where
  | typeErrorLogCaseResult

/-- Python `a or dflt` for an optional string `a`. -/
def truthyOr (o : Option String) (dflt : String) : String :=
  match o with
  | some s => if s = "" then dflt else s
  | none => dflt

/-- `content.get("page_meta", {}).get("slug")`, truthiness-filtered as the
`or` chains at the call sites do.  Slug values are string leaves in the
generator's schema. -/
def contentSlug (content : List (String × Doc)) : Option String :=
  match dictGet content "page_meta" with
  | some (.dict pm) =>
    match dictGet pm "slug" with
    | some (.leaf s) => if s = "" then none else some s
    | _ => none
  | _ => none

def prependEvents (evts : List Event) (r : List Event × Except PyError LoopOutcome) :
    List Event × Except PyError LoopOutcome :=
  (evts ++ r.1, r.2)

/-- One pass of the attempt loop of `run_production_loop`
(src/core/content_agent.py lines 100-286).  `fuel + 1` iterations remain;
`fuel = 0` therefore means `attempt >= max_retries` (the final permitted
attempt).  The fuel-0/empty case is the post-loop fallback of lines 266-286. -/
def loopGo (env : Env) (case_id : String) (caseRow : CaseRow) (planning : PlanningInfo)
    (include_content : Bool) :
    ℕ → ℕ → LoopState → List Event × Except PyError LoopOutcome
  | 0, _, st =>
    ([.updateStatus "discarded",
      .logMetrics ⟨case_id, truthyOr caseRow.slug "", "discarded",
        some (if st.last_feedback = "" then "max_retries_exceeded" else st.last_feedback),
        st.safety_status, st.similarity_score, st.uniqueness_score, st.unique_block_count,
        none, st.pui_scores.map (·.total), st.pui_scores.map (·.structure_score),
        st.pui_scores.map (·.data_score), st.pui_scores.map (·.eeat_score),
        planning.user_intent, planning.structure_type, truthyOr caseRow.category "debt"⟩],
      .ok (.discarded (if st.last_feedback = "" then "max_retries_exceeded" else st.last_feedback)))
  | fuel + 1, attempt, st =>
    match env.writer attempt st.last_feedback st.last_content with
    | none =>
      prependEvents [.genCall attempt st.last_feedback]
        (loopGo env case_id caseRow planning include_content fuel (attempt + 1)
          {st with last_feedback := "writer_failed"})
    | some content0 =>
      let content := prepareContent caseRow.slug planning content0
      let joined := flatten_content content
      let sv := review_content (env.llm attempt) joined
      let st1 := {st with safety_status := some sv.status.str}
      if sv.status = .EDIT ∨ sv.status = .DISCARD then
        if fuel = 0 then
          ([.genCall attempt st.last_feedback, .updateStatus "discarded",
            .logMetrics ⟨case_id, truthyOr (contentSlug content) (truthyOr caseRow.slug ""),
              "discarded", some sv.reason, st1.safety_status, st1.similarity_score,
              st1.uniqueness_score, st1.unique_block_count, some (pySplitWs joined).length,
              st1.pui_scores.map (·.total), st1.pui_scores.map (·.structure_score),
              st1.pui_scores.map (·.data_score), st1.pui_scores.map (·.eeat_score),
              planning.user_intent, planning.structure_type, truthyOr caseRow.category "debt"⟩],
            .ok (.discarded sv.reason))
        else
          prependEvents [.genCall attempt st.last_feedback]
            (loopGo env case_id caseRow planning include_content fuel (attempt + 1)
              {st1 with
                last_feedback := sv.reason
                last_content := some (match sv.refined_content with
                  | some r => if r = "" then .inr content else .inl r
                  | none => .inr content)})
      else
        let sim := env.simOracle attempt
        let uniq := compute_uniqueness_score sim
        let ubc := count_unique_blocks joined (some planning)
        let st2 := {st1 with
          similarity_score := some sim
          uniqueness_score := some uniq
          unique_block_count := some ubc}
        if qualityFails sim uniq ubc env.similarity_threshold then
          if fuel = 0 then
            ([.genCall attempt st.last_feedback, .updateStatus "discarded"],
              .error .typeErrorLogCaseResult)
          else
            prependEvents [.genCall attempt st.last_feedback]
              (loopGo env case_id caseRow planning include_content fuel (attempt + 1)
                {st2 with
                  last_feedback := qualityFeedback sim uniq ubc env.similarity_threshold
                  last_content := some (.inr content)})
        else
          let pui := compute_pui_score joined (some planning) (some sv)
          let st3 := {st2 with pui_scores := some pui}
          if (pui.total : ℤ) < env.min_pui then
            if fuel = 0 then
              ([.genCall attempt st.last_feedback, .updateStatus "discarded",
                .logMetrics ⟨case_id, truthyOr (contentSlug content) (truthyOr caseRow.slug ""),
                  "discarded", some "pui_too_low", st3.safety_status, st3.similarity_score,
                  st3.uniqueness_score, st3.unique_block_count, some (pySplitWs joined).length,
                  some pui.total, some pui.structure_score, some pui.data_score,
                  some pui.eeat_score, planning.user_intent, planning.structure_type,
                  truthyOr caseRow.category "debt"⟩],
                .ok (.discarded "pui_too_low"))
            else
              prependEvents [.genCall attempt st.last_feedback]
                (loopGo env case_id caseRow planning include_content fuel (attempt + 1)
                  {st3 with
                    last_feedback := puiFeedback pui.total env.min_pui
                    last_content := some (.inr content)})
          else
            match env.renderer attempt with
            | .ok _ =>
              ([.genCall attempt st.last_feedback, .renderCall attempt,
                .updateStatus "published",
                .logMetrics ⟨case_id,
                  truthyOr (contentSlug content) (truthyOr caseRow.slug ""),
                  "published", none, st3.safety_status, st3.similarity_score,
                  st3.uniqueness_score, st3.unique_block_count,
                  some (pySplitWs joined).length, some pui.total, some pui.structure_score,
                  some pui.data_score, some pui.eeat_score, planning.user_intent,
                  planning.structure_type, truthyOr caseRow.category "debt"⟩],
                .ok (.published
                  (match contentSlug content with
                    | some s => "public/" ++ s ++ ".html"
                    | none =>
                      match caseRow.slug with
                      | some s => if s = "" then "" else "public/" ++ s ++ ".html"
                      | none => "") attempt
                  (if include_content then some content else none)))
            | .error msg =>
              prependEvents [.genCall attempt st.last_feedback, .renderCall attempt]
                (loopGo env case_id caseRow planning include_content fuel (attempt + 1)
                  {st3 with last_feedback := "render_error: " ++ msg})

/-- `content_agent.run_production_loop` (src/core/content_agent.py lines
69-286): case lookup, then the bounded attempt loop. -/
def run_production_loop (env : Env) (case_id : String) (max_retries : ℕ)
    (include_content : Bool) : List Event × Except PyError LoopOutcome :=
  match env.getCase with
  | none => ([], .ok (.error "case_not_found"))
  | some caseRow =>
    loopGo env case_id caseRow (planningOf caseRow) include_content max_retries 1 initLoopState

/-- `pipeline.run_case` (src/core/pipeline.py lines 15-17):
`run_production_loop(case_id, max_retries=3)`. -/
def run_case (env : Env) (case_id : String) : List Event × Except PyError LoopOutcome :=
  run_production_loop env case_id 3 false

/-- Number of generator invocations (= attempts started) in a trace. -/
def countGenCalls (evts : List Event) : ℕ :=
  evts.countP fun e => match e with | .genCall _ _ => true | _ => false

/-- Number of metrics rows written in a trace. -/
def countLogCalls (evts : List Event) : ℕ :=
  evts.countP fun e => match e with | .logMetrics _ => true | _ => false

theorem qualityFails_iff (sim uniq : ℚ) (ubc : ℕ) (thr : ℚ) :
    qualityFails sim uniq ubc thr = true ↔
      (sim > thr ∨ uniq < 3/5 ∨ ubc < 3) := by
  simp [qualityFails, qualityNeedsSim, qualityNeedsUniq, Bool.or_eq_true,
    decide_eq_true_eq]

theorem loopGo_quality_retry (env : Env) (cid : String) (cr : CaseRow)
    (pl : PlanningInfo) (incl : Bool) (fuel n attempt : ℕ) (hfuel : fuel = n + 2)
    (st : LoopState) (content0 : List (String × Doc))
    (hw : env.writer attempt st.last_feedback st.last_content = some content0)
    (hsv : (review_content (env.llm attempt)
      (flatten_content (prepareContent cr.slug pl content0))).status = .PASS)
    (hq : qualityFails (env.simOracle attempt)
      (compute_uniqueness_score (env.simOracle attempt))
      (count_unique_blocks (flatten_content (prepareContent cr.slug pl content0)) (some pl))
      env.similarity_threshold = true) :
    loopGo env cid cr pl incl fuel attempt st =
      prependEvents [.genCall attempt st.last_feedback]
        (loopGo env cid cr pl incl (n + 1) (attempt + 1)
          ⟨qualityFeedback (env.simOracle attempt)
              (compute_uniqueness_score (env.simOracle attempt))
              (count_unique_blocks
                (flatten_content (prepareContent cr.slug pl content0)) (some pl))
              env.similarity_threshold,
            some (.inr (prepareContent cr.slug pl content0)),
            some (env.simOracle attempt),
            some (compute_uniqueness_score (env.simOracle attempt)),
            some (count_unique_blocks
              (flatten_content (prepareContent cr.slug pl content0)) (some pl)),
            st.pui_scores,
            some ((review_content (env.llm attempt)
              (flatten_content (prepareContent cr.slug pl content0))).status.str)⟩) := by
  subst hfuel
  rw [loopGo, hw]
  simp only [hsv, hq]
  rfl

theorem loopGo_quality_final (env : Env) (cid : String) (cr : CaseRow)
    (pl : PlanningInfo) (incl : Bool) (fuel attempt : ℕ) (hfuel : fuel = 1)
    (st : LoopState) (content0 : List (String × Doc))
    (hw : env.writer attempt st.last_feedback st.last_content = some content0)
    (hsv : (review_content (env.llm attempt)
      (flatten_content (prepareContent cr.slug pl content0))).status = .PASS)
    (hq : qualityFails (env.simOracle attempt)
      (compute_uniqueness_score (env.simOracle attempt))
      (count_unique_blocks (flatten_content (prepareContent cr.slug pl content0)) (some pl))
      env.similarity_threshold = true) :
    loopGo env cid cr pl incl fuel attempt st =
      ([.genCall attempt st.last_feedback, .updateStatus "discarded"],
        .error .typeErrorLogCaseResult) := by
  subst hfuel
  rw [loopGo, hw]
  simp only [hsv, hq]
  rfl

/-! ### Claim C4 -/

/-- C4: after a safety PASS on the attempt's flattened document, the quality
gate fails exactly when similarity > threshold OR uniqueness < 0.6 OR
unique-block count < 3; on a non-final attempt the loop retries carrying a
feedback reason that concatenates the fired sub-conditions, similarity first,
each phrased as a numeric comparison, joined by " / " and followed by the
fixed instruction to diversify structure/wording/examples. -/
theorem quality_gate_iff_and_feedback (env : Env) (cid : String) (cr : CaseRow)
    (pl : PlanningInfo) (incl : Bool) (n attempt : ℕ) (st : LoopState)
    (content0 : List (String × Doc))
    (hw : env.writer attempt st.last_feedback st.last_content = some content0)
    (hsv : (review_content (env.llm attempt)
      (flatten_content (prepareContent cr.slug pl content0))).status = .PASS) :
    (qualityFails (env.simOracle attempt)
        (compute_uniqueness_score (env.simOracle attempt))
        (count_unique_blocks (flatten_content (prepareContent cr.slug pl content0)) (some pl))
        env.similarity_threshold = true ↔
      (env.simOracle attempt > env.similarity_threshold ∨
        compute_uniqueness_score (env.simOracle attempt) < 3/5 ∨
        count_unique_blocks (flatten_content (prepareContent cr.slug pl content0))
          (some pl) < 3)) ∧
    (qualityFails (env.simOracle attempt)
        (compute_uniqueness_score (env.simOracle attempt))
        (count_unique_blocks (flatten_content (prepareContent cr.slug pl content0)) (some pl))
        env.similarity_threshold = true →
      loopGo env cid cr pl incl (n + 2) attempt st =
        prependEvents [.genCall attempt st.last_feedback]
          (loopGo env cid cr pl incl (n + 1) (attempt + 1)
            ⟨qualityFeedback (env.simOracle attempt)
                (compute_uniqueness_score (env.simOracle attempt))
                (count_unique_blocks
                  (flatten_content (prepareContent cr.slug pl content0)) (some pl))
                env.similarity_threshold,
              some (.inr (prepareContent cr.slug pl content0)),
              some (env.simOracle attempt),
              some (compute_uniqueness_score (env.simOracle attempt)),
              some (count_unique_blocks
                (flatten_content (prepareContent cr.slug pl content0)) (some pl)),
              st.pui_scores,
              some ((review_content (env.llm attempt)
                (flatten_content (prepareContent cr.slug pl content0))).status.str)⟩)) ∧
    (∀ sim uniq : ℚ, ∀ ubc : ℕ, ∀ thr : ℚ,
      (qualityNeedsSim sim thr = true → qualityNeedsUniq uniq ubc = true →
        qualityFeedback sim uniq ubc thr =
          "유사도 " ++ fmt2 sim ++ " > " ++ fmt2 thr ++ " / " ++
            ("유니크도 " ++ fmt2 uniq ++ " / 고유블록 " ++ toString ubc ++ " (기준: 0.6+, 3+)") ++
            " -> 더 독창적인 구조/표현/예시를 추가하세요.") ∧
      (qualityNeedsSim sim thr = true → qualityNeedsUniq uniq ubc = false →
        qualityFeedback sim uniq ubc thr =
          "유사도 " ++ fmt2 sim ++ " > " ++ fmt2 thr ++
            " -> 더 독창적인 구조/표현/예시를 추가하세요.") ∧
      (qualityNeedsSim sim thr = false → qualityNeedsUniq uniq ubc = true →
        qualityFeedback sim uniq ubc thr =
          "유니크도 " ++ fmt2 uniq ++ " / 고유블록 " ++ toString ubc ++ " (기준: 0.6+, 3+)" ++
            " -> 더 독창적인 구조/표현/예시를 추가하세요.")) := by
  refine ⟨qualityFails_iff _ _ _ _,
    fun hq => loopGo_quality_retry env cid cr pl incl (n + 2) n attempt rfl st content0 hw hsv hq,
    fun sim uniq ubc thr => ⟨?_, ?_, ?_⟩⟩
  · intro h1 h2
    simp [qualityFeedback, h1, h2, joinSep]
  · intro h1 h2
    simp [qualityFeedback, h1, h2, joinSep]
  · intro h1 h2
    simp [qualityFeedback, h1, h2, joinSep]

/-- Concrete test fixtures for the loop theorems: a case row with no slug and
no planning hints, a flag-free one-leaf document, a writer that always returns
it, an unavailable semantic check, similarity oracle constantly 1 with
threshold 0 (so the quality gate always fires), renderer succeeding. -/
def caseRowW : CaseRow := ⟨none, none, none, none, none, none, none, none⟩

def docW : List (String × Doc) :=
  [("hero_section", .dict [("headline", .leaf "안녕 테스트")])]

def envW : Env :=
  ⟨some caseRowW, fun _ _ _ => some docW, fun _ => none, fun _ => 1,
    fun _ => .ok (), 0, 80⟩

/-- C4 witness: on the concrete fixture the gate characterisation holds with
the writer and safety hypotheses discharged. -/
theorem quality_gate_iff_and_feedback_witness :
    envW.writer 1 initLoopState.last_feedback initLoopState.last_content = some docW ∧
    (review_content (envW.llm 1)
      (flatten_content (prepareContent caseRowW.slug (planningOf caseRowW) docW))).status =
        .PASS ∧
    (qualityFails (envW.simOracle 1)
        (compute_uniqueness_score (envW.simOracle 1))
        (count_unique_blocks
          (flatten_content (prepareContent caseRowW.slug (planningOf caseRowW) docW))
          (some (planningOf caseRowW)))
        envW.similarity_threshold = true ↔
      (envW.simOracle 1 > envW.similarity_threshold ∨
        compute_uniqueness_score (envW.simOracle 1) < 3/5 ∨
        count_unique_blocks
          (flatten_content (prepareContent caseRowW.slug (planningOf caseRowW) docW))
          (some (planningOf caseRowW)) < 3)) :=
  ⟨rfl, by decide,
    (quality_gate_iff_and_feedback envW "CASE-W" caseRowW (planningOf caseRowW) false 0 1
      initLoopState docW rfl (by decide)).1⟩

/-- The unique-block count the loop computes for a fixed generated document
`d0` (abbreviation for statements about runs whose writer always returns `d0`). -/
def loopUbc (cr : CaseRow) (d0 : List (String × Doc)) : ℕ :=
  count_unique_blocks (flatten_content (prepareContent cr.slug (planningOf cr) d0))
    (some (planningOf cr))

/-- The quality feedback carried out of attempt `i` for a fixed generated
document `d0`. -/
def loopFb (env : Env) (cr : CaseRow) (d0 : List (String × Doc)) (i : ℕ) : String :=
  qualityFeedback (env.simOracle i) (compute_uniqueness_score (env.simOracle i))
    (loopUbc cr d0) env.similarity_threshold

theorem run_loop_three_simfail (env : Env) (cid : String) (cr : CaseRow)
    (d0 : List (String × Doc))
    (hc : env.getCase = some cr)
    (hw : env.writer = fun _ _ _ => some d0)
    (hsv : ∀ i, (review_content (env.llm i)
      (flatten_content (prepareContent cr.slug (planningOf cr) d0))).status = .PASS)
    (hq : ∀ i, qualityFails (env.simOracle i)
      (compute_uniqueness_score (env.simOracle i)) (loopUbc cr d0)
      env.similarity_threshold = true) :
    run_production_loop env cid 3 false =
      ([.genCall 1 "", .genCall 2 (loopFb env cr d0 1), .genCall 3 (loopFb env cr d0 2),
        .updateStatus "discarded"], .error .typeErrorLogCaseResult) := by
  simp only [run_production_loop, hc]
  rw [loopGo_quality_retry env cid cr (planningOf cr) false 3 1 1 rfl _ d0
    (by rw [hw]) (hsv 1) (hq 1)]
  rw [loopGo_quality_retry env cid cr (planningOf cr) false (1 + 1) 0 2 rfl _ d0
    (by rw [hw]) (hsv 2) (hq 2)]
  rw [loopGo_quality_final env cid cr (planningOf cr) false (0 + 1) 3 rfl _ d0
    (by rw [hw]) (hsv 3) (hq 3)]
  simp [prependEvents, initLoopState, loopFb, loopUbc]

/-! ### Claim C1 -/

/-- C1 (amended): for a generator that always returns the same document and a
similarity oracle always above the threshold, `run_production_loop(case_id,
max_retries=3)` starts exactly 3 attempts — the effective bound is
`max_retries` itself, there is no cap at 2 — and after each non-final failed
attempt the carried feedback starts with the human-readable numeric similarity
comparison "유사도 <sim> > <threshold>"; the third (final) attempt does not
return a "discarded" outcome but aborts with the uncaught TypeError of the
under-supplied `metrics.log_case_result` call (after `db.update_status`). -/
theorem run_loop_three_attempts_then_type_error (env : Env) (cid : String)
    (cr : CaseRow) (d0 : List (String × Doc))
    (hc : env.getCase = some cr)
    (hw : env.writer = fun _ _ _ => some d0)
    (hsv : ∀ i, (review_content (env.llm i)
      (flatten_content (prepareContent cr.slug (planningOf cr) d0))).status = .PASS)
    (hsim : ∀ i, env.simOracle i > env.similarity_threshold) :
    run_production_loop env cid 3 false =
      ([.genCall 1 "", .genCall 2 (loopFb env cr d0 1), .genCall 3 (loopFb env cr d0 2),
        .updateStatus "discarded"], .error .typeErrorLogCaseResult) ∧
    ∀ i, ∃ rest, loopFb env cr d0 i =
      "유사도 " ++ fmt2 (env.simOracle i) ++ " > " ++ fmt2 env.similarity_threshold ++ rest := by
  have hq : ∀ i, qualityFails (env.simOracle i)
      (compute_uniqueness_score (env.simOracle i)) (loopUbc cr d0)
      env.similarity_threshold = true :=
    fun i => (qualityFails_iff _ _ _ _).mpr (Or.inl (hsim i))
  refine ⟨run_loop_three_simfail env cid cr d0 hc hw hsv hq, ?_⟩
  intro i
  have hns : qualityNeedsSim (env.simOracle i) env.similarity_threshold = true := by
    simp only [qualityNeedsSim, decide_eq_true_eq]
    exact hsim i
  by_cases hnu : qualityNeedsUniq (compute_uniqueness_score (env.simOracle i))
      (loopUbc cr d0) = true
  · refine ⟨" / " ++ ("유니크도 " ++ fmt2 (compute_uniqueness_score (env.simOracle i)) ++
      " / 고유블록 " ++ toString (loopUbc cr d0) ++ " (기준: 0.6+, 3+)") ++
      " -> 더 독창적인 구조/표현/예시를 추가하세요.", ?_⟩
    simp [loopFb, qualityFeedback, hns, hnu, joinSep, String.append_assoc]
  · rw [Bool.not_eq_true] at hnu
    refine ⟨" -> 더 독창적인 구조/표현/예시를 추가하세요.", ?_⟩
    simp [loopFb, qualityFeedback, hns, hnu, joinSep, String.append_assoc]

/-- C1 witness: on the concrete fixture (threshold 0, similarity 1) the run
makes three generator calls and ends in the TypeError. -/
theorem run_loop_three_attempts_then_type_error_witness :
    envW.getCase = some caseRowW ∧
    (∀ i, envW.simOracle i > envW.similarity_threshold) ∧
    run_production_loop envW "CASE-1" 3 false =
      ([.genCall 1 "", .genCall 2 (loopFb envW caseRowW docW 1),
        .genCall 3 (loopFb envW caseRowW docW 2), .updateStatus "discarded"],
        .error .typeErrorLogCaseResult) :=
  ⟨rfl, fun _ => zero_lt_one,
    (run_loop_three_attempts_then_type_error envW "CASE-1" caseRowW docW rfl rfl
      (fun _ => show (review_content none (flatten_content
        (prepareContent caseRowW.slug (planningOf caseRowW) docW))).status = .PASS
        by decide)
      (fun _ => zero_lt_one)).1⟩

/-- C1 counterexample: with a generator that always returns a document failing
the similarity threshold, `run(case_id, max_attempts=3)` starts 3 attempts,
not 2 — there is no cap at 2 — and it does not return a "discarded" outcome at
all: the run aborts with the metrics-arity TypeError. -/
theorem run_loop_not_capped_at_two :
    countGenCalls (run_production_loop envW "CASE-1" 3 false).1 = 3 ∧ (3 : ℕ) ≠ 2 ∧
    (run_production_loop envW "CASE-1" 3 false).2 = .error .typeErrorLogCaseResult := by
  have hrun := run_loop_three_simfail envW "CASE-1" caseRowW docW rfl rfl
    (fun _ => show (review_content none (flatten_content
      (prepareContent caseRowW.slug (planningOf caseRowW) docW))).status = .PASS
      by decide)
    (fun _ => (qualityFails_iff _ _ _ _).mpr (Or.inl zero_lt_one))
  rw [hrun]
  refine ⟨rfl, by decide, rfl⟩

/-! ### Claim C2 -/

/-- A second concrete fixture: a case with a category, a slug and a different
flag-free document. -/
def caseRow2 : CaseRow :=
  ⟨some "unpaid-invoice-1", some "debt", none, none, none, none, none, none⟩

def doc2 : List (String × Doc) := [("body", .leaf "케이스 본문 내용")]

def env2 : Env :=
  ⟨some caseRow2, fun _ _ _ => some doc2, fun _ => none, fun _ => 1,
    fun _ => .ok (), 0, 80⟩

/-- C2: the propagation claim fails — a similarity/uniqueness failure on the
final permitted attempt does NOT yield a returned "discarded" outcome with its
metrics logged.  The discard path at src/core/content_agent.py lines 166-180
passes 12 positional arguments to `metrics.log_case_result`, whose signature
(src/core/metrics.py lines 45-61) requires 15, so Python raises
`TypeError: log_case_result() missing 3 required positional arguments:
'pui_eeat', 'user_intent' and 'structure_type'` after `db.update_status` —
the exception escapes `run_production_loop` (and `pipeline.run_case`)
unhandled, and no metrics row is written. -/
theorem log_case_result_arity_type_error :
    (run_production_loop env2 "CASE-2" 3 false).2 = .error .typeErrorLogCaseResult ∧
    countLogCalls (run_production_loop env2 "CASE-2" 3 false).1 = 0 ∧
    countGenCalls (run_production_loop env2 "CASE-2" 3 false).1 = 3 := by
  have hrun := run_loop_three_simfail env2 "CASE-2" caseRow2 doc2 rfl rfl
    (fun _ => show (review_content none (flatten_content
      (prepareContent caseRow2.slug (planningOf caseRow2) doc2))).status = .PASS
      by decide)
    (fun _ => (qualityFails_iff _ _ _ _).mpr (Or.inl zero_lt_one))
  rw [hrun]
  refine ⟨rfl, rfl, rfl⟩
